import Mathlib

/-!
# Verification of the Contract-IQ multi-provider AI orchestrator

Shallow embedding of `apps/api/contract_iq/services/multi_ai_orchestrator.py`
(together with the deterministic stub generator of
`apps/api/contract_iq/services/gemini.py` and the `NegotiationContext`
schema of `apps/api/contract_iq/schemas/ai.py`), and proofs about the
circuit-breaker state machine, the failover loop, input/output validation
and the deterministic fallback generator.

Conventions of the embedding:
* Python `str` is Lean `String`; `str.strip`, `len`, slicing and `lower`
  are embedded as `pyStrip`, `pyLen`, `pyTake`, `pyLower` over the
  underlying character list.
* Python `float` timestamps and confidences are embedded as `ℚ`.
* Mutation of `ProviderHealth` records is embedded as explicit state
  passing; the orchestrator's `provider_health` dict (keys GEMINI and
  OPENAI) is the structure `OrchState`.
* Exceptions are embedded as `Except PyErr`; `PyErr` distinguishes the
  exception classes that the orchestrator's `except` clause inspects.
-/

/-- Python `str.strip()`: drop leading and trailing whitespace. -/
def pyStrip (s : String) : String :=
  ⟨((s.data.dropWhile Char.isWhitespace).reverse.dropWhile Char.isWhitespace).reverse⟩

/-- Python `len` on a string (number of code points). -/
def pyLen (s : String) : Nat := s.data.length

/-- Python slicing `s[:n]`. -/
def pyTake (s : String) (n : Nat) : String := ⟨s.data.take n⟩

/-- Python `str.lower()` (ASCII fragment, as used by the stub generator). -/
def pyLower (s : String) : String := ⟨s.data.map Char.toLower⟩

/-- Python truthiness of an `str | None` value: `None` and `""` are falsy. -/
def pyTruthyStr : Option String → Bool
  | none => false
  | some s => s ≠ ""

/-- Python `x or y` for `x : str | None`, `y : str`. -/
def pyOrStr (x : Option String) (y : String) : String :=
  match x with
  | some s => if s ≠ "" then s else y
  | none => y

/-- Python `x or y` for `x : int | None`, `y : int` (note `0` is falsy). -/
def pyOrInt (x : Option Int) (y : Int) : Int :=
  match x with
  | some n => if n ≠ 0 then n else y
  | none => y

/-- `AIProvider` enum of `multi_ai_orchestrator.py`. -/
inductive AIProvider where
  | GEMINI
  | OPENAI
  | STUB
deriving DecidableEq, Repr

/-- `CircuitBreakerState` enum of `multi_ai_orchestrator.py`. -/
inductive CircuitBreakerState where
  | CLOSED
  | OPEN
  | HALF_OPEN
deriving DecidableEq, Repr

/-- `ProviderHealth` model of `multi_ai_orchestrator.py`. -/
structure ProviderHealth where
  provider : AIProvider
  state : CircuitBreakerState := .CLOSED
  failure_count : Nat := 0
  last_failure_time : Option ℚ := none
  success_count : Nat := 0
deriving DecidableEq, Repr

/-- `MultiAIOrchestrator.FAILURE_THRESHOLD`. -/
def FAILURE_THRESHOLD : Nat := 3

/-- `MultiAIOrchestrator.SUCCESS_THRESHOLD`. -/
def SUCCESS_THRESHOLD : Nat := 2

/-- `MultiAIOrchestrator.RECOVERY_TIMEOUT` (seconds). -/
def RECOVERY_TIMEOUT : ℚ := 60

/-- A freshly created health record, as built in `MultiAIOrchestrator.__init__`:
`ProviderHealth(provider=p)` with all defaults. -/
def freshHealth (p : AIProvider) : ProviderHealth := { provider := p }

/-- Body of `MultiAIOrchestrator._record_success` acting on one health record
(the method first increments `success_count`, resets `failure_count`, then
closes the breaker if the record is half-open and the incremented success
count has reached `SUCCESS_THRESHOLD`). -/
def record_success_health (h : ProviderHealth) : ProviderHealth :=
  let h' := { h with success_count := h.success_count + 1, failure_count := 0 }
  if h'.state = .HALF_OPEN ∧ SUCCESS_THRESHOLD ≤ h'.success_count then
    { h' with state := .CLOSED }
  else
    h'

/-- Body of `MultiAIOrchestrator._record_failure` acting on one health record
at wall-clock time `now` (`time.time()`): increment `failure_count`, stamp
`last_failure_time`, zero `success_count`, and open the breaker when the
incremented failure count has reached `FAILURE_THRESHOLD`. -/
def record_failure_health (now : ℚ) (h : ProviderHealth) : ProviderHealth :=
  let h' := { h with failure_count := h.failure_count + 1,
                     last_failure_time := some now,
                     success_count := 0 }
  if FAILURE_THRESHOLD ≤ h'.failure_count then
    { h' with state := .OPEN }
  else
    h'

/-- Body of `MultiAIOrchestrator._is_provider_available` acting on one health
record at wall-clock time `now`: returns the availability verdict together
with the (possibly mutated) record.  In the `OPEN` state the code guards on
the Python truthiness of `last_failure_time` (`None` and `0.0` are falsy)
and flips the record to `HALF_OPEN` when strictly more than
`RECOVERY_TIMEOUT` seconds have elapsed. -/
def is_provider_available_health (now : ℚ) (h : ProviderHealth) :
    Bool × ProviderHealth :=
  match h.state with
  | .CLOSED => (true, h)
  | .OPEN =>
    match h.last_failure_time with
    | some t =>
      if t ≠ 0 then
        if now - t > RECOVERY_TIMEOUT then
          (true, { h with state := .HALF_OPEN })
        else
          (false, h)
      else (false, h)
    | none => (false, h)
  | .HALF_OPEN => (true, h)

/-- Events that drive one provider's health record: the three operations of
the tracker that can touch it (`_record_success`, `_record_failure` at a
given time, and the availability read at a given time, whose verdict is
discarded here). -/
inductive BreakerEvent where
  | success
  | failure (now : ℚ)
  | check (now : ℚ)
deriving DecidableEq, Repr

/-- Apply one tracker event to a health record. -/
def applyEvent (h : ProviderHealth) : BreakerEvent → ProviderHealth
  | .success => record_success_health h
  | .failure t => record_failure_health t h
  | .check t => (is_provider_available_health t h).2

/-- Run a sequence of tracker events from a starting record. -/
def runEvents (evs : List BreakerEvent) (h : ProviderHealth) : ProviderHealth :=
  evs.foldl applyEvent h

/-- `NegotiationMetadata` model of `schemas/ai.py` (the two datetimes and the
free-form `additional_context` dict carry no validation constraints and are
embedded opaquely as optional strings / an opaque flag). -/
structure NegotiationMetadata where
  contract_name : Option String := none
  contract_type : Option String := none
  counterparty : Option String := none
  effective_date : Option String := none
  renewal_date : Option String := none
  jurisdiction : Option String := none
deriving DecidableEq, Repr

/-- The pydantic length constraints of `NegotiationMetadata`
(`max_length` 200/120/200/120 on the four constrained string fields). -/
def metadata_constraints_ok (m : NegotiationMetadata) : Bool :=
  (match m.contract_name with | some s => pyLen s ≤ 200 | none => true) &&
  (match m.contract_type with | some s => pyLen s ≤ 120 | none => true) &&
  (match m.counterparty with | some s => pyLen s ≤ 200 | none => true) &&
  (match m.jurisdiction with | some s => pyLen s ≤ 120 | none => true)

/-- `NegotiationContext` model of `schemas/ai.py`. -/
structure NegotiationContext where
  topic : String
  contract_id : String
  template_id : String
  vertical : Option String := none
  current_position : String
  target_position : String
  fallback_position : Option String := none
  stakeholders : List String := []
  impact : Option String := none
  risk_signal : Option String := none
  metadata : Option NegotiationMetadata := none
deriving DecidableEq, Repr

/-- The pydantic field constraints of `NegotiationContext`
(`min_length`/`max_length` as declared in `schemas/ai.py`). -/
def context_constraints_ok (c : NegotiationContext) : Bool :=
  (1 ≤ pyLen c.topic && pyLen c.topic ≤ 160) &&
  (1 ≤ pyLen c.contract_id) &&
  (1 ≤ pyLen c.template_id) &&
  (match c.vertical with | some s => pyLen s ≤ 80 | none => true) &&
  (1 ≤ pyLen c.current_position) &&
  (1 ≤ pyLen c.target_position) &&
  (match c.fallback_position with | some s => 1 ≤ pyLen s | none => true) &&
  (match c.impact with | some s => pyLen s ≤ 64 | none => true) &&
  (match c.risk_signal with | some s => pyLen s ≤ 64 | none => true) &&
  (match c.metadata with | some m => metadata_constraints_ok m | none => true)

/-- The `stakeholders` before-mode field validator of `NegotiationContext`
(`_normalize_stakeholders` on a list input): strip every entry, drop the
ones that strip to empty. -/
def normalize_stakeholders (l : List String) : List String :=
  (l.map pyStrip).filter (fun s => s ≠ "")

/-- `NegotiationGuidance` dataclass of `gemini.py` (the unified guidance
value the orchestrator returns). -/
structure NegotiationGuidance where
  summary : String
  fallback_recommendation : String
  talking_points : List String
  risk_callouts : List String
  confidence : ℚ
  generated_prompt : String
  cached : Bool
  model : String
  latency_ms : Int
  documentation_url : Option String := none
deriving DecidableEq, Repr

/-- `OpenAINegotiationGuidance` dataclass of `openai_client.py`. -/
structure OpenAINegotiationGuidance where
  summary : String
  fallback_recommendation : String
  talking_points : List String
  risk_callouts : List String
  confidence : ℚ
  generated_prompt : String
  model : String
  latency_ms : Int
  documentation_url : Option String := none
deriving DecidableEq, Repr

/-- The Python exception classes relevant to the orchestrator.
`valueError` embeds `ValueError` raised by `_validate_input`;
`validationError` embeds a genuine pydantic `ValidationError` instance
(as raised by pydantic model construction — in pydantic v2 it subclasses
`ValueError`); `typeError` embeds `TypeError`;
`geminiServiceError`/`openaiServiceError` embed the two provider error
classes; `otherError` stands for anything else. -/
inductive PyErr where
  | valueError (msg : String)
  | validationError
  | typeError (msg : String)
  | geminiServiceError (msg : String)
  | openaiServiceError (msg : String)
  | otherError (msg : String)
deriving DecidableEq, Repr

/-- The exception classes caught by the failover loop's
`except (GeminiServiceError, OpenAIServiceError, ValidationError)` clause.
A `TypeError` or plain `ValueError` escapes the loop. -/
def caught_by_loop : PyErr → Bool
  | .geminiServiceError _ => true
  | .openaiServiceError _ => true
  | .validationError => true
  | _ => false

/-- The spec's `InvalidInput` failure: a `ValueError`, including a pydantic
`ValidationError` (its subclass in pydantic v2). -/
def is_invalid_input : PyErr → Bool
  | .valueError _ => true
  | .validationError => true
  | _ => false

/-- `MultiAIOrchestrator._sanitize_string`: empty strings pass through,
otherwise strip surrounding whitespace and truncate to 10,000 characters. -/
def sanitize_string (text : String) : String :=
  if text = "" then text
  else
    let sanitized := pyStrip text
    if pyLen sanitized > 10000 then pyTake sanitized 10000 else sanitized

/-- The conditional sanitization `self._sanitize_string(x) if x else None`
applied to the optional fields in `_validate_input` (Python truthiness:
`None` and `""` both map to `None`). -/
def sanitize_opt (x : Option String) : Option String :=
  match x with
  | some s => if s ≠ "" then some (sanitize_string s) else none
  | none => none

/-- `MultiAIOrchestrator._validate_input`: (1) re-validate the context's
pydantic constraints via `model_validate(model_dump())` (which also re-runs
the stakeholders normalizer), wrapping a failure into `ValueError`;
(2) reject a topic / current position / target position that is empty after
stripping, with `ValueError`; (3) sanitize every free-text field and
rebuild the context — the rebuild runs pydantic validation again, and a
failure there (e.g. a whitespace-only `fallback_position` sanitized to
`""`, violating `min_length=1`) escapes as a raw pydantic
`ValidationError`. -/
def validate_input (c : NegotiationContext) : Except PyErr NegotiationContext :=
  if ¬ context_constraints_ok c then
    .error (.valueError "Invalid negotiation context")
  else
    let v : NegotiationContext :=
      { c with stakeholders := normalize_stakeholders c.stakeholders }
    if pyStrip v.topic = "" then
      .error (.valueError "Topic cannot be empty or whitespace")
    else if pyStrip v.current_position = "" then
      .error (.valueError "Current position cannot be empty")
    else if pyStrip v.target_position = "" then
      .error (.valueError "Target position cannot be empty")
    else
      let s : NegotiationContext :=
        { topic := sanitize_string v.topic
          contract_id := sanitize_string v.contract_id
          template_id := sanitize_string v.template_id
          vertical := sanitize_opt v.vertical
          current_position := sanitize_string v.current_position
          target_position := sanitize_string v.target_position
          fallback_position := sanitize_opt v.fallback_position
          stakeholders := normalize_stakeholders (v.stakeholders.map sanitize_string)
          impact := sanitize_opt v.impact
          risk_signal := sanitize_opt v.risk_signal
          metadata := v.metadata }
      if context_constraints_ok s then .ok s else .error .validationError

/-- `MultiAIOrchestrator._validate_output`.  A `NegotiationGuidance`
dataclass instance is always truthy, so the `if not guidance` guard never
fires on a value.  Each failing check executes
`raise ValidationError("<msg>")` — but pydantic v2's `ValidationError`
cannot be instantiated from a message string, so that statement itself
raises `TypeError` (which the failover loop does not catch); the intended
message is kept as the payload for traceability. -/
def validate_output (g : NegotiationGuidance) : Except PyErr NegotiationGuidance :=
  if g.summary = "" ∨ pyLen (pyStrip g.summary) < 10 then
    .error (.typeError "Summary is too short or empty")
  else if g.fallback_recommendation = "" ∨ pyLen (pyStrip g.fallback_recommendation) < 5 then
    .error (.typeError "Fallback recommendation is too short or empty")
  else if g.talking_points = [] then
    .error (.typeError "No talking points provided")
  else if g.confidence < 0 ∨ g.confidence > 1 then
    .error (.typeError "Invalid confidence value")
  else
    .ok g

/-- `MultiAIOrchestrator._get_provider_order`. -/
def get_provider_order (preferred : Option AIProvider) : List AIProvider :=
  if preferred = some .OPENAI then
    [.OPENAI, .GEMINI, .STUB]
  else
    [.GEMINI, .OPENAI, .STUB]

/-- `GeminiFlashClient._build_stub_guidance` (parameterized by the client's
configured model name, `self.config.model`): the deterministic stub built
from the context and the prompt, with fixed confidence `0.55` and latency
`latency_ms or 5`. -/
def build_stub_guidance (model : String) (c : NegotiationContext)
    (prompt : String) (latency_ms : Option Int) : NegotiationGuidance :=
  let fallback := pyOrStr c.fallback_position c.target_position
  let talking_points :=
    ["Reinforce target position: " ++ c.target_position,
     "Clarify business impact and risk trade-offs",
     "Offer data-backed precedent to support concessions"]
  let risk_notes :=
    match c.risk_signal with
    | some rs =>
      if rs ≠ "" then
        ["Monitor " ++ pyLower rs ++ " risk for " ++ pyLower c.topic,
         "Escalate to legal if supplier resists fallback"]
      else ["Track negotiation outcome for playbook learning"]
    | none => ["Track negotiation outcome for playbook learning"]
  let summary :=
    "Position the conversation around " ++ pyLower c.topic ++
    " by contrasting the current supplier stance with the desired target outcome. " ++
    "Highlight business impact and align stakeholders on the recommended fallback " ++
    "if resistance emerges."
  { summary := summary
    fallback_recommendation := fallback
    talking_points := talking_points
    risk_callouts := risk_notes
    confidence := 0.55
    generated_prompt := prompt
    cached := false
    model := model
    latency_ms := pyOrInt latency_ms 5
    documentation_url := none }

/-- `MultiAIOrchestrator._generate_stub_guidance`: delegates to the Gemini
client's stub builder with prompt `prompt_override or "Stub prompt for
{topic}"` and no latency value. -/
def generate_stub_guidance (gemini_model : String) (c : NegotiationContext)
    (prompt_override : Option String) : NegotiationGuidance :=
  build_stub_guidance gemini_model c
    (pyOrStr prompt_override ("Stub prompt for " ++ c.topic)) none

/-- The orchestrator's `provider_health` dict: one record per real provider,
keyed `GEMINI` and `OPENAI` (no entry for `STUB`). -/
structure OrchState where
  gemini : ProviderHealth
  openai : ProviderHealth
deriving DecidableEq, Repr

/-- The dict built in `MultiAIOrchestrator.__init__`: fresh records. -/
def freshOrchState : OrchState :=
  { gemini := freshHealth .GEMINI, openai := freshHealth .OPENAI }

/-- `self.provider_health.get(provider)`: `None` for `STUB`. -/
def get_health (st : OrchState) : AIProvider → Option ProviderHealth
  | .GEMINI => some st.gemini
  | .OPENAI => some st.openai
  | .STUB => none

/-- Write back a provider's (mutated) health record. -/
def set_health (st : OrchState) (p : AIProvider) (h : ProviderHealth) : OrchState :=
  match p with
  | .GEMINI => { st with gemini := h }
  | .OPENAI => { st with openai := h }
  | .STUB => st

/-- `MultiAIOrchestrator._record_success`: early return for `STUB`, no-op on
a missing record, otherwise mutate the record. -/
def record_success (p : AIProvider) (st : OrchState) : OrchState :=
  if p = .STUB then st
  else
    match get_health st p with
    | some h => set_health st p (record_success_health h)
    | none => st

/-- `MultiAIOrchestrator._record_failure` at wall-clock time `now`. -/
def record_failure (now : ℚ) (p : AIProvider) (st : OrchState) : OrchState :=
  if p = .STUB then st
  else
    match get_health st p with
    | some h => set_health st p (record_failure_health now h)
    | none => st

/-- `MultiAIOrchestrator._is_provider_available` at wall-clock time `now`:
`STUB` is always available; a missing record is treated as available; the
`OPEN` → `HALF_OPEN` transition is a side effect of this read. -/
def is_provider_available (now : ℚ) (p : AIProvider) (st : OrchState) :
    Bool × OrchState :=
  if p = .STUB then (true, st)
  else
    match get_health st p with
    | none => (true, st)
    | some h =>
      let (b, h') := is_provider_available_health now h
      (b, set_health st p h')

/-- The outcome of the single capability call this request would make to
each real provider (`gemini_client.generate_guidance` /
`openai_client.generate_guidance` are external collaborators: network
clients).  A `.error` value is the exception the call would raise. -/
structure ProviderOracle where
  gemini : Except PyErr NegotiationGuidance
  openai : Except PyErr OpenAINegotiationGuidance
deriving Repr

/-- The OpenAI-to-unified conversion performed inline in
`_generate_with_provider`. -/
def convert_openai (o : OpenAINegotiationGuidance) : NegotiationGuidance :=
  { summary := o.summary
    fallback_recommendation := o.fallback_recommendation
    talking_points := o.talking_points
    risk_callouts := o.risk_callouts
    confidence := o.confidence
    generated_prompt := o.generated_prompt
    cached := false
    model := "openai:" ++ o.model
    latency_ms := o.latency_ms
    documentation_url := o.documentation_url }

/-- `MultiAIOrchestrator._generate_with_provider`: dispatch to the provider
capability (modelled by the oracle for the two real providers) or to the
deterministic stub. -/
def generate_with_provider (oracle : ProviderOracle) (gemini_model : String)
    (c : NegotiationContext) (prompt_override : Option String) :
    AIProvider → Except PyErr NegotiationGuidance
  | .GEMINI => oracle.gemini
  | .OPENAI => oracle.openai.map convert_openai
  | .STUB => .ok (generate_stub_guidance gemini_model c prompt_override)

/-- The failover loop of `generate_guidance` (step 3 of its docstring):
walk the provider order; skip unavailable providers (the availability read
may flip a breaker to `HALF_OPEN`); on a caught provider/validation error
record a failure and continue; on an uncaught error propagate it with the
state as mutated so far; on an accepted result record a success and return
it.  The result is `none` when every candidate was skipped or failed, paired
with the final health state and the list of providers whose capability was
actually invoked. -/
def try_providers (oracle : ProviderOracle) (gemini_model : String) (now : ℚ)
    (c : NegotiationContext) (prompt_override : Option String) :
    List AIProvider → OrchState → List AIProvider →
    Option (Except PyErr NegotiationGuidance) × OrchState × List AIProvider
  | [], st, calls => (none, st, calls)
  | p :: rest, st, calls =>
    let avst := is_provider_available now p st
    if avst.1 then
      let calls' := calls ++ [p]
      match generate_with_provider oracle gemini_model c prompt_override p with
      | .error e =>
        if caught_by_loop e then
          try_providers oracle gemini_model now c prompt_override rest
            (record_failure now p avst.2) calls'
        else
          (some (.error e), avst.2, calls')
      | .ok g =>
        match validate_output g with
        | .error e =>
          if caught_by_loop e then
            try_providers oracle gemini_model now c prompt_override rest
              (record_failure now p avst.2) calls'
          else
            (some (.error e), avst.2, calls')
        | .ok g' => (some (.ok g'), record_success p avst.2, calls')
    else
      try_providers oracle gemini_model now c prompt_override rest avst.2 calls

/-- `MultiAIOrchestrator.generate_guidance`: validate the input (failures
surface immediately, before any provider work), compute the provider
order, run the failover loop, and fall back to the deterministic stub when
every candidate was skipped or failed.  Returns the outcome, the final
provider-health state, and the list of providers whose capability was
invoked. -/
def generate_guidance (oracle : ProviderOracle) (gemini_model : String)
    (now : ℚ) (context : NegotiationContext) (prompt_override : Option String)
    (preferred_provider : Option AIProvider) (st : OrchState) :
    Except PyErr NegotiationGuidance × OrchState × List AIProvider :=
  match validate_input context with
  | .error e => (.error e, st, [])
  | .ok validated_context =>
    match try_providers oracle gemini_model now validated_context prompt_override
        (get_provider_order preferred_provider) st [] with
    | (some r, st', calls) => (r, st', calls)
    | (none, st', calls) =>
      (.ok (generate_stub_guidance gemini_model validated_context prompt_override),
       st', calls)

set_option maxRecDepth 200000
set_option maxHeartbeats 1000000

/-- The quality contract enforced by `_validate_output` on an accepted
guidance value. -/
def output_quality (g : NegotiationGuidance) : Prop :=
  10 ≤ pyLen (pyStrip g.summary) ∧
  5 ≤ pyLen (pyStrip g.fallback_recommendation) ∧
  g.talking_points ≠ [] ∧
  0 ≤ g.confidence ∧ g.confidence ≤ 1

/-- An accepted output is returned unchanged and meets the quality
contract. -/
theorem validate_output_ok {g g' : NegotiationGuidance}
    (h : validate_output g = .ok g') : g' = g ∧ output_quality g := by
  unfold validate_output at h
  split_ifs at h with h1 h2 h3 h4
  · push_neg at h1 h2 h3 h4
    cases h
    exact ⟨rfl, by omega, by omega, h3, h4.1, h4.2⟩

/-- A rejected output always surfaces as a `TypeError` (the failed
`ValidationError(...)` instantiation), which the failover loop does not
catch. -/
theorem validate_output_error_uncaught {g : NegotiationGuidance} {e : PyErr}
    (h : validate_output g = .error e) : caught_by_loop e = false := by
  unfold validate_output at h
  split_ifs at h <;> cases h <;> rfl

/-- C3 (counterexample): two consecutive successes in `HalfOpen` do close the
breaker and reset the failure count, but the success count is NOT reset to
0 — after the trace open-the-breaker / wait / availability-check /
success / success it is 2.  (`_record_success` never writes
`success_count = 0`.) -/
theorem half_open_close_keeps_success_count :
    (runEvents [.failure 1, .failure 2, .failure 3, .check 100, .success, .success]
        (freshHealth .GEMINI)).state = .CLOSED ∧
    (runEvents [.failure 1, .failure 2, .failure 3, .check 100, .success, .success]
        (freshHealth .GEMINI)).failure_count = 0 ∧
    (runEvents [.failure 1, .failure 2, .failure 3, .check 100, .success, .success]
        (freshHealth .GEMINI)).success_count ≠ 0 := by
  have h : runEvents [.failure 1, .failure 2, .failure 3, .check 100, .success, .success]
      (freshHealth .GEMINI)
      = { provider := .GEMINI, state := .CLOSED, failure_count := 0,
          last_failure_time := some 3, success_count := 2 } := by
    simp [runEvents, applyEvent, record_failure_health, record_success_health,
          is_provider_available_health, freshHealth, FAILURE_THRESHOLD,
          SUCCESS_THRESHOLD, RECOVERY_TIMEOUT]
    norm_num
  rw [h]
  exact ⟨rfl, rfl, by decide⟩

/-- C3 (amended): from any `HalfOpen` record, two consecutive
`recordSuccess` calls close the breaker and reset the failure count to 0,
but leave the success count incremented by 2 (it is never reset on
closing; only a failure resets it). -/
theorem half_open_two_successes_close (h : ProviderHealth)
    (hs : h.state = .HALF_OPEN) :
    (record_success_health (record_success_health h)).state = .CLOSED ∧
    (record_success_health (record_success_health h)).failure_count = 0 ∧
    (record_success_health (record_success_health h)).success_count
      = h.success_count + 2 := by
  unfold record_success_health
  simp only [hs, SUCCESS_THRESHOLD]
  split_ifs <;> simp_all

/-- Witness for `half_open_two_successes_close` at a concrete half-open
record (the state a breaker is in right after its first availability check
succeeds following the recovery timeout). -/
theorem half_open_two_successes_close_witness :
    (record_success_health (record_success_health
        { provider := .GEMINI, state := .HALF_OPEN, failure_count := 3,
          last_failure_time := some 5, success_count := 0 })).state = .CLOSED ∧
    (record_success_health (record_success_health
        { provider := .GEMINI, state := .HALF_OPEN, failure_count := 3,
          last_failure_time := some 5, success_count := 0 })).failure_count = 0 ∧
    (record_success_health (record_success_health
        { provider := .GEMINI, state := .HALF_OPEN, failure_count := 3,
          last_failure_time := some 5, success_count := 0 })).success_count
      = 0 + 2 :=
  half_open_two_successes_close
    { provider := .GEMINI, state := .HALF_OPEN, failure_count := 3,
      last_failure_time := some 5, success_count := 0 } rfl

/-- C4 (counterexample): after a prior success in `HalfOpen` (which reset
the failure count to 0), a single `recordFailure` does NOT reopen the
breaker: on the trace open / wait / availability-check / success /
failure the record ends in `HALF_OPEN`, not `OPEN` (`_record_failure`
only opens when the incremented failure count reaches the threshold,
with no special case for `HalfOpen`). -/
theorem half_open_failure_after_success_stays_half_open :
    runEvents [.failure 1, .failure 2, .failure 3, .check 100, .success, .failure 200]
        (freshHealth .GEMINI)
      = { provider := .GEMINI, state := .HALF_OPEN, failure_count := 1,
          last_failure_time := some 200, success_count := 0 } ∧
    (runEvents [.failure 1, .failure 2, .failure 3, .check 100, .success, .failure 200]
        (freshHealth .GEMINI)).state ≠ .OPEN := by
  have h : runEvents [.failure 1, .failure 2, .failure 3, .check 100, .success, .failure 200]
      (freshHealth .GEMINI)
      = { provider := .GEMINI, state := .HALF_OPEN, failure_count := 1,
          last_failure_time := some 200, success_count := 0 } := by
    simp [runEvents, applyEvent, record_failure_health, record_success_health,
          is_provider_available_health, freshHealth, FAILURE_THRESHOLD,
          SUCCESS_THRESHOLD, RECOVERY_TIMEOUT]
    norm_num
  exact ⟨h, by rw [h]; decide⟩

/-- C4 (amended): a single `recordFailure` on a `HalfOpen` record resets
the success count to 0, restamps the last-failure time, increments the
failure count, and sets the state to `Open` exactly when the incremented
failure count reaches `FAILURE_THRESHOLD` (3) — otherwise the record stays
`HalfOpen`.  In particular a breaker that entered `HalfOpen` with its
failure count still ≥ 3 reopens, but after a prior half-open success the
failure count restarts from 0 and a single failure does not reopen it. -/
theorem half_open_failure_spec (h : ProviderHealth) (now : ℚ)
    (hs : h.state = .HALF_OPEN) :
    (record_failure_health now h).success_count = 0 ∧
    (record_failure_health now h).last_failure_time = some now ∧
    (record_failure_health now h).failure_count = h.failure_count + 1 ∧
    (record_failure_health now h).state
      = (if FAILURE_THRESHOLD ≤ h.failure_count + 1 then .OPEN else .HALF_OPEN) := by
  unfold record_failure_health
  by_cases hf : FAILURE_THRESHOLD ≤ h.failure_count + 1
  · simp [hf]
  · simp [hf, hs]

/-- Witness for `half_open_failure_spec`: a breaker that entered `HalfOpen`
with failure count 3 reopens on a single failure. -/
theorem half_open_failure_spec_witness :
    (record_failure_health 70
        { provider := .GEMINI, state := .HALF_OPEN, failure_count := 3,
          last_failure_time := some 5, success_count := 0 }).success_count = 0 ∧
    (record_failure_health 70
        { provider := .GEMINI, state := .HALF_OPEN, failure_count := 3,
          last_failure_time := some 5, success_count := 0 }).last_failure_time = some 70 ∧
    (record_failure_health 70
        { provider := .GEMINI, state := .HALF_OPEN, failure_count := 3,
          last_failure_time := some 5, success_count := 0 }).failure_count = 3 + 1 ∧
    (record_failure_health 70
        { provider := .GEMINI, state := .HALF_OPEN, failure_count := 3,
          last_failure_time := some 5, success_count := 0 }).state
      = (if FAILURE_THRESHOLD ≤ 3 + 1 then .OPEN else .HALF_OPEN) :=
  half_open_failure_spec
    { provider := .GEMINI, state := .HALF_OPEN, failure_count := 3,
      last_failure_time := some 5, success_count := 0 } 70 rfl

/-- C5: from a freshly created record, exactly 3 consecutive failures open
the breaker and stamp the last-failure time with the last failure's
timestamp; after only 2 failures it is still closed; and any success on a
closed record resets the failure count to 0. -/
theorem breaker_opens_at_threshold (p : AIProvider) (t1 t2 t3 : ℚ)
    (h : ProviderHealth) (_hc : h.state = .CLOSED) :
    (record_failure_health t3 (record_failure_health t2 (record_failure_health t1
        (freshHealth p)))).state = .OPEN ∧
    (record_failure_health t3 (record_failure_health t2 (record_failure_health t1
        (freshHealth p)))).last_failure_time = some t3 ∧
    (record_failure_health t2 (record_failure_health t1 (freshHealth p))).state
      = .CLOSED ∧
    (record_success_health h).failure_count = 0 := by
  have h1 : record_failure_health t1 (freshHealth p)
      = { provider := p, state := .CLOSED, failure_count := 1,
          last_failure_time := some t1, success_count := 0 } := by
    simp [record_failure_health, freshHealth, FAILURE_THRESHOLD]
  have h2 : record_failure_health t2 (record_failure_health t1 (freshHealth p))
      = { provider := p, state := .CLOSED, failure_count := 2,
          last_failure_time := some t2, success_count := 0 } := by
    rw [h1]; simp [record_failure_health, FAILURE_THRESHOLD]
  have h3 : record_failure_health t3 (record_failure_health t2 (record_failure_health t1
        (freshHealth p)))
      = { provider := p, state := .OPEN, failure_count := 3,
          last_failure_time := some t3, success_count := 0 } := by
    rw [h2]; simp [record_failure_health, FAILURE_THRESHOLD]
  refine ⟨by rw [h3], by rw [h3], by rw [h2], ?_⟩
  unfold record_success_health
  simp only [SUCCESS_THRESHOLD]
  split_ifs <;> rfl

/-- Witness for `breaker_opens_at_threshold` at concrete timestamps and a
concrete closed record. -/
theorem breaker_opens_at_threshold_witness :
    (record_failure_health 3 (record_failure_health 2 (record_failure_health 1
        (freshHealth .GEMINI)))).state = .OPEN ∧
    (record_failure_health 3 (record_failure_health 2 (record_failure_health 1
        (freshHealth .GEMINI)))).last_failure_time = some 3 ∧
    (record_failure_health 2 (record_failure_health 1 (freshHealth .GEMINI))).state
      = .CLOSED ∧
    (record_success_health
        { provider := .OPENAI, state := .CLOSED, failure_count := 2,
          last_failure_time := some 1, success_count := 7 }).failure_count = 0 :=
  breaker_opens_at_threshold .GEMINI 1 2 3
    { provider := .OPENAI, state := .CLOSED, failure_count := 2,
      last_failure_time := some 1, success_count := 7 } rfl

/-- C6: while `Open` with a recorded last failure at time `t > 0`, the
availability read at time `now` reports the provider unavailable (and
leaves the record untouched) whenever at most `RECOVERY_TIMEOUT` (60s)
has elapsed, and flips the record to `HALF_OPEN` and reports it available
as soon as strictly more than the timeout has elapsed — the transition is
a side effect of the read itself. -/
theorem open_breaker_recovery_read (h : ProviderHealth) (now t : ℚ)
    (hs : h.state = .OPEN) (hl : h.last_failure_time = some t) (ht : 0 < t) :
    (now - t ≤ RECOVERY_TIMEOUT →
      is_provider_available_health now h = (false, h)) ∧
    (RECOVERY_TIMEOUT < now - t →
      is_provider_available_health now h = (true, { h with state := .HALF_OPEN })) := by
  unfold is_provider_available_health
  rw [hs, hl]
  have ht0 : t ≠ 0 := ne_of_gt ht
  constructor
  · intro hle
    simp [ht0, not_lt.mpr hle]
  · intro hgt
    simp [ht0, hgt]

/-- Witness for `open_breaker_recovery_read`: at 30 seconds after the last
failure the provider is still unavailable; at 140 seconds the read flips
the breaker to `HALF_OPEN` and reports it available. -/
theorem open_breaker_recovery_read_witness :
    (is_provider_available_health 130
        { provider := .GEMINI, state := .OPEN, failure_count := 3,
          last_failure_time := some 100, success_count := 0 }
      = (false,
        { provider := .GEMINI, state := .OPEN, failure_count := 3,
          last_failure_time := some 100, success_count := 0 })) ∧
    (is_provider_available_health 240
        { provider := .GEMINI, state := .OPEN, failure_count := 3,
          last_failure_time := some 100, success_count := 0 }
      = (true,
        { provider := .GEMINI, state := .HALF_OPEN, failure_count := 3,
          last_failure_time := some 100, success_count := 0 })) :=
  ⟨(open_breaker_recovery_read
      { provider := .GEMINI, state := .OPEN, failure_count := 3,
        last_failure_time := some 100, success_count := 0 } 130 100 rfl rfl
      (by norm_num)).1 (by norm_num [RECOVERY_TIMEOUT]),
   (open_breaker_recovery_read
      { provider := .GEMINI, state := .OPEN, failure_count := 3,
        last_failure_time := some 100, success_count := 0 } 240 100 rfl rfl
      (by norm_num)).2 (by norm_num [RECOVERY_TIMEOUT])⟩

/-- C7: the failover order is a pure function of the preference hint —
the default order is Gemini, OpenAI, Stub; only a preference for the
secondary provider (OpenAI) swaps the first two; every order ends with
the always-available stub identity. -/
theorem provider_order_spec :
    get_provider_order none = [.GEMINI, .OPENAI, .STUB] ∧
    get_provider_order (some .GEMINI) = [.GEMINI, .OPENAI, .STUB] ∧
    get_provider_order (some .OPENAI) = [.OPENAI, .GEMINI, .STUB] ∧
    get_provider_order (some .STUB) = [.GEMINI, .OPENAI, .STUB] ∧
    ∀ preferred : Option AIProvider,
      (get_provider_order preferred).getLast? = some .STUB := by
  refine ⟨rfl, rfl, rfl, rfl, ?_⟩
  intro preferred
  unfold get_provider_order
  split_ifs <;> rfl

/-- Invariant used for C10: in a success-free run the breaker can only be
`Open` or `HalfOpen` while the failure count is at or above the failure
threshold. -/
def no_success_floor (h : ProviderHealth) : Prop :=
  (h.state = .OPEN ∨ h.state = .HALF_OPEN) → FAILURE_THRESHOLD ≤ h.failure_count

/-- `no_success_floor` is preserved by every non-success event. -/
theorem no_success_floor_step (h : ProviderHealth) (e : BreakerEvent)
    (hne : e ≠ .success) (hinv : no_success_floor h) :
    no_success_floor (applyEvent h e) := by
  cases e with
  | success => exact absurd rfl hne
  | failure t =>
    unfold no_success_floor applyEvent record_failure_health
    unfold no_success_floor at hinv
    by_cases hf : FAILURE_THRESHOLD ≤ h.failure_count + 1
    · simp [hf]
    · simp [hf]
      refine ⟨fun hst => ?_, fun hst => ?_⟩
      · exact hf (Nat.le_succ_of_le (hinv (Or.inl hst)))
      · exact hf (Nat.le_succ_of_le (hinv (Or.inr hst)))
  | check t =>
    unfold no_success_floor applyEvent is_provider_available_health
    unfold no_success_floor at hinv
    cases hst : h.state with
    | CLOSED => simp [hst]
    | OPEN =>
      cases hl : h.last_failure_time with
      | none => simpa [hst, hl] using hinv
      | some u =>
        by_cases hu : u ≠ 0
        · by_cases hel : t - u > RECOVERY_TIMEOUT
          · simp [hst, hl, hu, hel]
            exact hinv (Or.inl hst)
          · simpa [hst, hl, hu, hel] using hinv
        · simpa [hst, hl, hu] using hinv
    | HALF_OPEN => simpa [hst] using hinv

/-- `no_success_floor` holds along any success-free event run from a start
record satisfying it. -/
theorem no_success_floor_run (evs : List BreakerEvent) (h : ProviderHealth)
    (hne : ∀ e ∈ evs, e ≠ .success) (hinv : no_success_floor h) :
    no_success_floor (runEvents evs h) := by
  induction evs generalizing h with
  | nil => exact hinv
  | cons e rest ih =>
    have h1 : no_success_floor (applyEvent h e) :=
      no_success_floor_step h e (hne e (List.mem_cons_self e rest)) hinv
    exact ih (applyEvent h e) (fun x hx => hne x (List.mem_cons_of_mem e hx)) h1

/-- C10: (frame) the availability read mutates at most the `state` field of
a health record — failure count, success count and last-failure time are
returned unchanged for every record and every read time; (floor) in any
run of failures and availability reads from a fresh record in which no
success is ever recorded, whenever the record is `HalfOpen` its failure
count is still at or above `FAILURE_THRESHOLD` (3). -/
theorem availability_read_frame_and_floor :
    (∀ (now : ℚ) (h : ProviderHealth),
      (is_provider_available_health now h).2.provider = h.provider ∧
      (is_provider_available_health now h).2.failure_count = h.failure_count ∧
      (is_provider_available_health now h).2.success_count = h.success_count ∧
      (is_provider_available_health now h).2.last_failure_time = h.last_failure_time) ∧
    (∀ (p : AIProvider) (evs : List BreakerEvent),
      (∀ e ∈ evs, e ≠ .success) →
      (runEvents evs (freshHealth p)).state = .HALF_OPEN →
      FAILURE_THRESHOLD ≤ (runEvents evs (freshHealth p)).failure_count) := by
  constructor
  · intro now h
    obtain ⟨pr, st, fc, lt, sc⟩ := h
    unfold is_provider_available_health
    cases st <;> cases lt <;> (simp; try split_ifs <;> simp)
  · intro p evs hne hst
    have hfresh : no_success_floor (freshHealth p) := by
      intro hor
      rcases hor with h1 | h1 <;> simp [freshHealth] at h1
    exact no_success_floor_run evs (freshHealth p) hne hfresh (Or.inr hst)

/-- Witness for `availability_read_frame_and_floor`: the frame equalities at
a concrete open record and read time, and the floor after the concrete
success-free run 3 failures / availability check, which lands in
`HALF_OPEN` with failure count 3. -/
theorem availability_read_frame_and_floor_witness :
    ((is_provider_available_health 42
        { provider := .OPENAI, state := .OPEN, failure_count := 3,
          last_failure_time := some 10, success_count := 0 }).2.provider = .OPENAI ∧
     (is_provider_available_health 42
        { provider := .OPENAI, state := .OPEN, failure_count := 3,
          last_failure_time := some 10, success_count := 0 }).2.failure_count = 3 ∧
     (is_provider_available_health 42
        { provider := .OPENAI, state := .OPEN, failure_count := 3,
          last_failure_time := some 10, success_count := 0 }).2.success_count = 0 ∧
     (is_provider_available_health 42
        { provider := .OPENAI, state := .OPEN, failure_count := 3,
          last_failure_time := some 10, success_count := 0 }).2.last_failure_time
        = some 10) ∧
    FAILURE_THRESHOLD ≤
      (runEvents [.failure 1, .failure 2, .failure 3, .check 100]
        (freshHealth .GEMINI)).failure_count := by
  constructor
  · exact availability_read_frame_and_floor.1 42
      { provider := .OPENAI, state := .OPEN, failure_count := 3,
        last_failure_time := some 10, success_count := 0 }
  · refine availability_read_frame_and_floor.2 .GEMINI
      [.failure 1, .failure 2, .failure 3, .check 100] (by decide) ?_
    have h : runEvents [.failure 1, .failure 2, .failure 3, .check 100]
        (freshHealth .GEMINI)
        = { provider := .GEMINI, state := .HALF_OPEN, failure_count := 3,
            last_failure_time := some 3, success_count := 0 } := by
      simp [runEvents, applyEvent, record_failure_health, record_success_health,
            is_provider_available_health, freshHealth, FAILURE_THRESHOLD,
            SUCCESS_THRESHOLD, RECOVERY_TIMEOUT]
      norm_num
    rw [h]

/-- A context whose topic, current position or target position strips to
empty never survives `_validate_input`: the failure is a `ValueError`
(either the wrapped pydantic re-validation failure or one of the three
explicit emptiness checks, all of which precede sanitization). -/
theorem validate_input_rejects_blank (c : NegotiationContext)
    (hbad : pyStrip c.topic = "" ∨ pyStrip c.current_position = "" ∨
            pyStrip c.target_position = "") :
    ∃ m, validate_input c = .error (.valueError m) := by
  unfold validate_input
  simp only []
  split_ifs with h1 h2 h3 h4 <;> first | exact ⟨_, rfl⟩ | simp_all

/-- C8: when the topic, current position or target position is empty or
whitespace-only after trimming, `generate_guidance` fails with the
`InvalidInput` `ValueError`, invokes no provider capability, and leaves
every provider health record exactly as it was. -/
theorem validation_precedes_providers (oracle : ProviderOracle)
    (gemini_model : String) (now : ℚ) (c : NegotiationContext)
    (prompt_override : Option String) (preferred : Option AIProvider)
    (st : OrchState)
    (hbad : pyStrip c.topic = "" ∨ pyStrip c.current_position = "" ∨
            pyStrip c.target_position = "") :
    (∃ m, (generate_guidance oracle gemini_model now c prompt_override
      preferred st).1 = .error (.valueError m)) ∧
    (generate_guidance oracle gemini_model now c prompt_override
      preferred st).2.1 = st ∧
    (generate_guidance oracle gemini_model now c prompt_override
      preferred st).2.2 = [] := by
  obtain ⟨m, hm⟩ := validate_input_rejects_blank c hbad
  unfold generate_guidance
  rw [hm]
  exact ⟨⟨m, rfl⟩, rfl, rfl⟩

/-- Witness for `validation_precedes_providers` at a whitespace-only topic
with both provider capabilities healthy and a non-fresh health state:
the call fails with `ValueError`, performs no capability call and returns
the state untouched. -/
theorem validation_precedes_providers_witness :
    (∃ m, (generate_guidance
        ⟨.error (.geminiServiceError "boom"), .error (.openaiServiceError "boom")⟩
        "gemini-1.5-flash-latest" 500
        { topic := "   ", contract_id := "c-1", template_id := "t-1",
          current_position := "cur", target_position := "tgt" }
        none none
        { gemini := { provider := .GEMINI, state := .OPEN, failure_count := 3,
                      last_failure_time := some 9, success_count := 0 },
          openai := freshHealth .OPENAI }).1 = .error (.valueError m)) ∧
    (generate_guidance
        ⟨.error (.geminiServiceError "boom"), .error (.openaiServiceError "boom")⟩
        "gemini-1.5-flash-latest" 500
        { topic := "   ", contract_id := "c-1", template_id := "t-1",
          current_position := "cur", target_position := "tgt" }
        none none
        { gemini := { provider := .GEMINI, state := .OPEN, failure_count := 3,
                      last_failure_time := some 9, success_count := 0 },
          openai := freshHealth .OPENAI }).2.1
      = { gemini := { provider := .GEMINI, state := .OPEN, failure_count := 3,
                      last_failure_time := some 9, success_count := 0 },
          openai := freshHealth .OPENAI } ∧
    (generate_guidance
        ⟨.error (.geminiServiceError "boom"), .error (.openaiServiceError "boom")⟩
        "gemini-1.5-flash-latest" 500
        { topic := "   ", contract_id := "c-1", template_id := "t-1",
          current_position := "cur", target_position := "tgt" }
        none none
        { gemini := { provider := .GEMINI, state := .OPEN, failure_count := 3,
                      last_failure_time := some 9, success_count := 0 },
          openai := freshHealth .OPENAI }).2.2 = [] :=
  validation_precedes_providers
    ⟨.error (.geminiServiceError "boom"), .error (.openaiServiceError "boom")⟩
    "gemini-1.5-flash-latest" 500
    { topic := "   ", contract_id := "c-1", template_id := "t-1",
      current_position := "cur", target_position := "tgt" }
    none none
    { gemini := { provider := .GEMINI, state := .OPEN, failure_count := 3,
                  last_failure_time := some 9, success_count := 0 },
      openai := freshHealth .OPENAI }
    (Or.inl (by decide))

/-- C9 (counterexample): the fallback's fixed confidence (0.55) is NOT
below the confidence of every real-provider result accepted by the Output
Validator — a result with confidence 0.3 passes validation — and the
fallback's `model` field is just the configured Gemini model name
("gemini-1.5-flash-latest" by default), not a fallback-specific
identifier. -/
theorem fallback_confidence_and_model_counterexample :
    validate_output
        { summary := "A sufficiently long provider summary",
          fallback_recommendation := "Concede to a 99.5% uptime compromise",
          talking_points := ["Lead with the data"], risk_callouts := [],
          confidence := 0.3, generated_prompt := "p", cached := false,
          model := "gpt-4o-mini", latency_ms := 5, documentation_url := none }
      = .ok
        { summary := "A sufficiently long provider summary",
          fallback_recommendation := "Concede to a 99.5% uptime compromise",
          talking_points := ["Lead with the data"], risk_callouts := [],
          confidence := 0.3, generated_prompt := "p", cached := false,
          model := "gpt-4o-mini", latency_ms := 5, documentation_url := none } ∧
    ¬ ((build_stub_guidance "gemini-1.5-flash-latest"
          { topic := "SLA Enhancement", contract_id := "c-1", template_id := "t-1",
            current_position := "99% uptime", target_position := "99.9% uptime" }
          "p" none).confidence
        < (0.3 : ℚ)) ∧
    (build_stub_guidance "gemini-1.5-flash-latest"
        { topic := "SLA Enhancement", contract_id := "c-1", template_id := "t-1",
          current_position := "99% uptime", target_position := "99.9% uptime" }
        "p" none).model = "gemini-1.5-flash-latest" := by
  refine ⟨?_, ?_, rfl⟩
  · unfold validate_output
    norm_num [pyStrip, pyLen]
    rfl
  · show ¬ ((0.55 : ℚ) < 0.3)
    norm_num

/-- C9 (amended): the fallback generator is a total, deterministic function
of the validated context and optional prompt override; its fallback
recommendation is the context's fallback position when that is a
non-empty string, else the target position; its confidence is the fixed
value 0.55 (within the validator's accepted [0,1] range, not below every
accepted real-provider confidence); its `model` field carries the
configured Gemini model name and its prompt defaults to
"Stub prompt for {topic}". -/
theorem fallback_generator_spec (gemini_model : String)
    (c : NegotiationContext) (prompt_override : Option String) :
    (generate_stub_guidance gemini_model c prompt_override).confidence = 0.55 ∧
    (generate_stub_guidance gemini_model c prompt_override).fallback_recommendation
      = pyOrStr c.fallback_position c.target_position ∧
    (generate_stub_guidance gemini_model c prompt_override).model = gemini_model ∧
    (generate_stub_guidance gemini_model c prompt_override).cached = false ∧
    (generate_stub_guidance gemini_model c prompt_override).generated_prompt
      = pyOrStr prompt_override ("Stub prompt for " ++ c.topic) ∧
    (generate_stub_guidance gemini_model c prompt_override).latency_ms = 5 :=
  ⟨rfl, rfl, rfl, rfl, rfl, rfl⟩

/-- Every guidance the failover loop returns successfully went through the
Output Validator and therefore meets the quality contract. -/
theorem try_providers_ok_quality (oracle : ProviderOracle) (gm : String)
    (now : ℚ) (c : NegotiationContext) (po : Option String) :
    ∀ (L : List AIProvider) (st : OrchState) (calls : List AIProvider)
      (g : NegotiationGuidance) (st' : OrchState) (calls' : List AIProvider),
      try_providers oracle gm now c po L st calls = (some (.ok g), st', calls') →
      output_quality g := by
  intro L
  induction L with
  | nil =>
    intro st calls g st' calls' h
    simp [try_providers] at h
  | cons p rest ih =>
    intro st calls g st' calls' h
    unfold try_providers at h
    simp only [] at h
    by_cases hav : (is_provider_available now p st).1 = true
    · rw [if_pos hav] at h
      cases hgen : generate_with_provider oracle gm c po p with
      | error e =>
        simp only [hgen] at h
        by_cases hc : caught_by_loop e = true
        · rw [if_pos hc] at h
          exact ih _ _ _ _ _ h
        · rw [if_neg hc] at h
          simp at h
      | ok gg =>
        simp only [hgen] at h
        cases hval : validate_output gg with
        | error e =>
          simp only [hval] at h
          by_cases hc : caught_by_loop e = true
          · rw [if_pos hc] at h
            exact ih _ _ _ _ _ h
          · rw [if_neg hc] at h
            simp at h
        | ok g2 =>
          simp only [hval, Prod.mk.injEq, Option.some.injEq, Except.ok.injEq] at h
          obtain ⟨heq, hq⟩ := validate_output_ok hval
          rw [← h.1, heq]
          exact hq
    · rw [if_neg hav] at h
      exact ih _ _ _ _ _ h

/-- A provider order that ends in the stub never exhausts: the loop always
produces an early result on the stub iteration (the stub is always
available, its guidance is deterministic, and a validation rejection is an
uncaught `TypeError`, not a `continue`). -/
theorem try_providers_stub_some (oracle : ProviderOracle) (gm : String)
    (now : ℚ) (c : NegotiationContext) (po : Option String) :
    ∀ (L : List AIProvider) (st : OrchState) (calls : List AIProvider),
      (try_providers oracle gm now c po (L ++ [.STUB]) st calls).1 ≠ none := by
  intro L
  induction L with
  | nil =>
    intro st calls
    show (try_providers oracle gm now c po ([] ++ [.STUB]) st calls).1 ≠ none
    rw [List.nil_append]
    unfold try_providers
    have hav : is_provider_available now .STUB st = (true, st) := rfl
    obtain ⟨G, hG⟩ : ∃ G, generate_with_provider oracle gm c po .STUB = .ok G :=
      ⟨_, rfl⟩
    simp only [hav, hG, if_true]
    cases hval : validate_output G with
    | error e => simp [validate_output_error_uncaught hval]
    | ok g2 => simp
  | cons p rest ih =>
    intro st calls
    show (try_providers oracle gm now c po ((p :: rest) ++ [.STUB]) st calls).1 ≠ none
    rw [List.cons_append]
    unfold try_providers
    simp only []
    by_cases hav : (is_provider_available now p st).1 = true
    · rw [if_pos hav]
      cases hgen : generate_with_provider oracle gm c po p with
      | error e =>
        simp only [hgen]
        by_cases hc : caught_by_loop e = true
        · rw [if_pos hc]
          exact ih _ _
        · rw [if_neg hc]
          simp
      | ok gg =>
        simp only [hgen]
        cases hval : validate_output gg with
        | error e =>
          simp only [hval]
          by_cases hc : caught_by_loop e = true
          · rw [if_pos hc]
            exact ih _ _
          · rw [if_neg hc]
            simp
        | ok g2 =>
          simp only [hval]
          simp
    · rw [if_neg hav]
      exact ih _ _

/-- C2 (amended): every guidance value `generate_guidance` returns
successfully meets the Output Validator's contract — summary at least 10
characters after trim, fallback recommendation at least 5 after trim, a
non-empty talking-points list, confidence within [0,1].  (Individual
talking points are NOT checked and may be blank; and the post-loop stub
return is unreachable because the stub iteration itself either returns a
validated result or escapes with the validator's `TypeError`.) -/
theorem generate_guidance_output_quality (oracle : ProviderOracle)
    (gm : String) (now : ℚ) (c : NegotiationContext) (po : Option String)
    (pref : Option AIProvider) (st : OrchState) (g : NegotiationGuidance)
    (st' : OrchState) (calls : List AIProvider)
    (h : generate_guidance oracle gm now c po pref st = (.ok g, st', calls)) :
    output_quality g := by
  unfold generate_guidance at h
  cases hv : validate_input c with
  | error e =>
    rw [hv] at h
    simp at h
  | ok vctx =>
    rw [hv] at h
    simp only [] at h
    rcases htry : try_providers oracle gm now vctx po (get_provider_order pref) st []
      with ⟨ropt, st2, calls2⟩
    rw [htry] at h
    cases ropt with
    | some r =>
      simp only [Prod.mk.injEq] at h
      rw [h.1] at htry
      exact try_providers_ok_quality oracle gm now vctx po _ _ _ _ _ _ htry
    | none =>
      obtain ⟨L, hL⟩ : ∃ L, get_provider_order pref = L ++ [.STUB] := by
        unfold get_provider_order
        split_ifs
        · exact ⟨[.OPENAI, .GEMINI], rfl⟩
        · exact ⟨[.GEMINI, .OPENAI], rfl⟩
      have hsome := try_providers_stub_some oracle gm now vctx po L st []
      rw [← hL, htry] at hsome
      simp at hsome

/-- Witness for `generate_guidance_output_quality`: a concrete run in which
the first provider returns an acceptable guidance value. -/
theorem generate_guidance_output_quality_witness :
    output_quality
      { summary := "A sufficiently long summary text",
        fallback_recommendation := "Accept a 99.5% uptime floor",
        talking_points := ["Lead with the data"], risk_callouts := [],
        confidence := 1, generated_prompt := "p", cached := false,
        model := "gemini-1.5-flash-latest", latency_ms := 10,
        documentation_url := none } :=
  generate_guidance_output_quality
    ⟨.ok { summary := "A sufficiently long summary text",
           fallback_recommendation := "Accept a 99.5% uptime floor",
           talking_points := ["Lead with the data"], risk_callouts := [],
           confidence := 1, generated_prompt := "p", cached := false,
           model := "gemini-1.5-flash-latest", latency_ms := 10,
           documentation_url := none },
     .error (.openaiServiceError "OpenAI client not available")⟩
    "gemini-1.5-flash-latest" 7
    { topic := "SLA Enhancement", contract_id := "c-1", template_id := "t-1",
      current_position := "99% uptime", target_position := "99.9% uptime" }
    none none freshOrchState
    { summary := "A sufficiently long summary text",
      fallback_recommendation := "Accept a 99.5% uptime floor",
      talking_points := ["Lead with the data"], risk_callouts := [],
      confidence := 1, generated_prompt := "p", cached := false,
      model := "gemini-1.5-flash-latest", latency_ms := 10,
      documentation_url := none }
    { gemini := { provider := .GEMINI, state := .CLOSED, failure_count := 0,
                  last_failure_time := none, success_count := 1 },
      openai := freshHealth .OPENAI }
    [.GEMINI] (by rfl)

/-- C2 (counterexample): `generate_guidance` can return a guidance whose
only talking point is blank after trimming — the Output Validator checks
only that the talking-points list is non-empty, not that individual
points are non-empty after trim. -/
theorem returned_guidance_blank_talking_point :
    (generate_guidance
        ⟨.ok { summary := "A sufficiently long summary text",
               fallback_recommendation := "Accept a 99.5% uptime floor",
               talking_points := [" "], risk_callouts := [], confidence := 1,
               generated_prompt := "p", cached := false, model := "m",
               latency_ms := 10, documentation_url := none },
          .error (.openaiServiceError "OpenAI client not available")⟩
        "gemini-1.5-flash-latest" 7
        { topic := "SLA Enhancement", contract_id := "c-1", template_id := "t-1",
          current_position := "99% uptime", target_position := "99.9% uptime" }
        none none freshOrchState).1
      = .ok { summary := "A sufficiently long summary text",
              fallback_recommendation := "Accept a 99.5% uptime floor",
              talking_points := [" "], risk_callouts := [], confidence := 1,
              generated_prompt := "p", cached := false, model := "m",
              latency_ms := 10, documentation_url := none } ∧
    ¬ (∀ tp ∈ ([" "] : List String), pyStrip tp ≠ "") := by
  constructor
  · rfl
  · intro hall
    exact hall " " (List.mem_singleton_self " ") (by decide)

/-- C1 (code bug, evaluated): a context that passes input validation — all
fields valid, target position "99%" and no fallback position — makes
`generate_guidance` raise `TypeError` when the first provider's guidance
(here the Gemini client's own keyless deterministic stub, whose fallback
recommendation "99%" is shorter than 5) reaches `_validate_output`: the
statement `raise ValidationError("...")` cannot instantiate pydantic v2's
`ValidationError` from a message string, and the resulting `TypeError` is
caught by no handler, so the call fails after validation succeeded — the
escaping error is neither `InvalidInput` nor absorbed by the failover
loop. -/
theorem generate_guidance_typeerror_escape :
    validate_input
        { topic := "SLA Enhancement", contract_id := "test-123",
          template_id := "sla_enhancement", current_position := "99% uptime",
          target_position := "99%" }
      = .ok
        { topic := "SLA Enhancement", contract_id := "test-123",
          template_id := "sla_enhancement", current_position := "99% uptime",
          target_position := "99%" } ∧
    generate_guidance
        ⟨.ok (build_stub_guidance "gemini-1.5-flash-latest"
                { topic := "SLA Enhancement", contract_id := "test-123",
                  template_id := "sla_enhancement",
                  current_position := "99% uptime", target_position := "99%" }
                "p" none),
          .error (.openaiServiceError "OpenAI client not available")⟩
        "gemini-1.5-flash-latest" 1000
        { topic := "SLA Enhancement", contract_id := "test-123",
          template_id := "sla_enhancement", current_position := "99% uptime",
          target_position := "99%" }
        none none freshOrchState
      = (.error (.typeError "Fallback recommendation is too short or empty"),
         freshOrchState, [.GEMINI]) ∧
    is_invalid_input (.typeError "Fallback recommendation is too short or empty")
      = false ∧
    caught_by_loop (.typeError "Fallback recommendation is too short or empty")
      = false :=
  ⟨by rfl, by rfl, rfl, rfl⟩
